import Mathlib

/-!
Verification of the client-side session/auth lifecycle and the transfer
form of the clientMMS application, as a shallow embedding in Lean 4.

The embedding follows the source:
* `src/src/contexts/AuthContext.tsx` — the auth provider: the initialization
  effect (`initAuth`, guarded by `isInitialized`), `login`, `logout`,
  `register`.
* `src/src/pages/transfers/new.tsx` — the transfer-creation page: the Yup
  validation schema `TransferSchema` and the `onSubmit` handler.

State mutated by the auth provider lives in three places in the browser:
the zustand auth store (`user`, `isAuthenticated`, `isInitialized`), the
browser local storage (a single `token` key), and the router (the current
pathname).  The embedding gathers them into one `World` record and each
operation is a function on `World`, additionally reporting the observable
effects it performed (navigations requested, remote service calls made)
and, for fallible operations, the settled promise value as an `Except`.
Remote-service responses are inputs to the operations, since the remote
service is an external collaborator.

JavaScript numbers in the form (quantity, available) are modelled as
rationals `ℚ`; the Yup `integer()` test becomes a denominator check.
-/

/-- `User` (from `@/types/user`, shapes as used by the sources and §3 of
the design document): identity, full name, email, role string, optional
assigned base, active flag. -/
structure User where
  _id : String
  fullName : String
  email : String
  role : String
  assignedBase : Option String
  active : Bool
deriving Repr, DecidableEq

/-- The successful payload of `authService.login`: `{ token, user }`
(AuthContext.tsx lines 70‑76). -/
structure LoginResponse where
  token : String
  user : User
deriving Repr, DecidableEq

/-- A remote call made through `authService`.  `register` is the
account-creation call that is commented out in the source. -/
inductive RemoteCall where
  | loginCall (username password : String)
  | logoutCall
  | registerCall
deriving Repr, DecidableEq

/-- Observable effects of one auth operation: the targets of
`router.replace` / `router.push` invocations, in order, and the
`authService` calls made. -/
structure Fx where
  navigations : List String
  remoteCalls : List RemoteCall
deriving Repr, DecidableEq

/-- The effect record of an operation that touched neither the router nor
the remote service. -/
def Fx.none : Fx := { navigations := [], remoteCalls := [] }

/-- The mutable client state the auth provider touches: the zustand store
fields `user`, `isAuthenticated`, `isInitialized`; the local-storage
`token` entry (`none` = absent); and the router's current pathname. -/
structure World where
  user : Option User
  isAuthenticated : Bool
  isInitialized : Bool
  token : Option String
  pathname : String
deriving Repr, DecidableEq

/-- `initAuth` (AuthContext.tsx lines 39‑60): remove the `token` entry
from local storage, set the user to `null` and `isAuthenticated` to
`false`; then, if the pathname is none of `/login`, `/register`,
`/forgot-password`, call `router.replace` with `/login`; finally set
`isInitialized` to `true`.  (The `catch` branch is dead in the embedding:
no statement of the `try` block throws.) -/
def initAuth (w : World) : World × Fx :=
  let w1 : World := { w with token := none, user := none, isAuthenticated := false }
  let redirect : Bool :=
    w1.pathname ≠ "/login" && w1.pathname ≠ "/register" && w1.pathname ≠ "/forgot-password"
  let w2 : World := if redirect then { w1 with pathname := "/login" } else w1
  ({ w2 with isInitialized := true },
   { navigations := if redirect then ["/login"] else [], remoteCalls := [] })

/-- The initialization effect body (AuthContext.tsx lines 30‑63): if
`isInitialized` is already set it returns at once, otherwise it runs
`initAuth`. -/
def initEffect (w : World) : World × Fx :=
  if w.isInitialized then (w, Fx.none) else initAuth w

/-- `login` (AuthContext.tsx lines 65‑90).  The remote response is the
input `resp`.  On success: store the returned token under `token`, set the
user from the response, set `isAuthenticated` to `true`, and resolve with
the returned user.  On failure: remove the token, clear the user, set
`isAuthenticated` to `false`, and reject with the same error.  The
`authService.login` call is made in either case. -/
def login (w : World) (username password : String)
    (resp : Except String LoginResponse) : (World × Fx) × Except String User :=
  match resp with
  | Except.ok r =>
      (({ w with token := some r.token, user := some r.user, isAuthenticated := true },
        { navigations := [], remoteCalls := [RemoteCall.loginCall username password] }),
       Except.ok r.user)
  | Except.error e =>
      (({ w with token := none, user := none, isAuthenticated := false },
        { navigations := [], remoteCalls := [RemoteCall.loginCall username password] }),
       Except.error e)

/-- `logout` (AuthContext.tsx lines 92‑108).  The `authService.logout`
call is made; a failure is caught and only logged.  The `finally` block
then unconditionally removes the token, clears the user, sets
`isAuthenticated` to `false` and calls `router.replace` with `/login`.
The returned promise resolves (with `()`) whatever `resp` was. -/
def logout (w : World) (resp : Except String Unit) : (World × Fx) × Except String Unit :=
  (({ w with token := none, user := none, isAuthenticated := false, pathname := "/login" },
    { navigations := ["/login"], remoteCalls := [RemoteCall.logoutCall] }),
   Except.ok ())

/-- `register` (AuthContext.tsx lines 110‑115): the
`authService.register` call is commented out, so the operation only calls
`router.push` with `/login`.  `userData` is the opaque payload. -/
def registerUser (w : World) (userData : String) : World × Fx :=
  ({ w with pathname := "/login" },
   { navigations := ["/login"], remoteCalls := [] })

/-- One auth-provider operation occurring after initialization, with the
remote response it observed. -/
inductive AuthEvent where
  | loginEv (username password : String) (resp : Except String LoginResponse)
  | logoutEv (resp : Except String Unit)
  | registerEv (userData : String)
deriving Repr

/-- The state transition of one event (dropping effect logs and promise
values). -/
def stepAuth (w : World) (e : AuthEvent) : World :=
  match e with
  | AuthEvent.loginEv u p r => (login w u p r).1.1
  | AuthEvent.logoutEv r => (logout w r).1.1
  | AuthEvent.registerEv d => (registerUser w d).1

/-- Run a sequence of auth operations from a state. -/
def runAuth (w : World) (es : List AuthEvent) : World :=
  es.foldl stepAuth w

/-- Whether an event is a `login` call whose remote call succeeded. -/
def isSuccessfulLogin : AuthEvent → Bool
  | AuthEvent.loginEv _ _ (Except.ok _) => true
  | _ => false

/-! ## Transfer-creation page (`src/src/pages/transfers/new.tsx`) -/

/-- `Asset` (from `@/types/asset`, fields as used by the page): identity,
name, type, owning base, available quantity. -/
structure Asset where
  _id : String
  name : String
  assetType : String
  base : String
  available : ℚ
deriving Repr, DecidableEq

/-- The formik form values of the transfer page (new.tsx lines 96‑102). -/
structure TransferValues where
  asset : String
  fromBase : String
  toBase : String
  quantity : ℚ
  notes : String
deriving Repr, DecidableEq

/-- The `TransferSchema` Yup object schema (new.tsx lines 18‑29), as the
predicate deciding whether the form values pass validation:
* `asset`: required string (Yup `required` rejects the empty string);
* `fromBase`: required string;
* `toBase`: required string, `notOneOf` the value of `fromBase`;
* `quantity`: required number, positive, integer;
* `notes`: unconstrained string. -/
def transferSchemaValid (v : TransferValues) : Bool :=
  v.asset ≠ "" &&
  v.fromBase ≠ "" &&
  (v.toBase ≠ "" && v.toBase ≠ v.fromBase) &&
  (0 < v.quantity && v.quantity.den = 1)

/-- The submit button (new.tsx line 344) is enabled only when the form is
not already submitting and formik reports the values valid. -/
def submitEnabled (isSubmitting : Bool) (v : TransferValues) : Bool :=
  !isSubmitting && transferSchemaValid v

/-- The created transfer returned by `transferService.createTransfer`,
fields as used by the handler (`_id`, `quantity`, `assetName`). -/
structure CreatedTransfer where
  _id : String
  quantity : ℚ
  assetName : String
deriving Repr, DecidableEq

/-- A `toast.error` message shown by the submit handler: either the
over-availability message with the available quantity interpolated, or
the failure message of the create call (`error.response?.data?.error`
when present, otherwise the fallback text). -/
inductive ToastError where
  | overAvailable (available : ℚ)
  | createFailed (msg : String)
deriving Repr, DecidableEq

/-- What one run of the `onSubmit` handler did, observably. -/
structure SubmitResult where
  /-- whether `transferService.createTransfer` was invoked -/
  serviceCalled : Bool
  /-- the `toast.error` shown, if any -/
  errorToast : Option ToastError
  /-- whether the success toast and store notification were emitted -/
  successToast : Bool
  /-- the `router.push` target, if any -/
  navigateTo : Option String
deriving Repr, DecidableEq

/-- The guard `selectedAsset && values.quantity > selectedAsset.available`
of new.tsx line 109: it fires only when an asset is selected. -/
def quantityTooLarge (selectedAsset : Option Asset) (quantity : ℚ) : Bool :=
  match selectedAsset with
  | some a => a.available < quantity
  | none => false

/-- The tail of the submit handler from the `createTransfer` call on
(new.tsx lines 116‑130): the service call, then either the success
notification and navigation to the created transfer, or the error toast
with the server-supplied message when present. -/
def createTransferStep (svcResp : Except (Option String) CreatedTransfer) : SubmitResult :=
  match svcResp with
  | Except.ok t =>
      { serviceCalled := true
        errorToast := none
        successToast := true
        navigateTo := some ("/transfers/" ++ t._id) }
  | Except.error e =>
      { serviceCalled := true
        errorToast := some (ToastError.createFailed (e.getD "Failed to create transfer"))
        successToast := false
        navigateTo := none }

/-- The `onSubmit` handler (new.tsx lines 104‑134).  `selectedAsset` is
the component state at submit time; `svcResp` is the outcome of the
`createTransfer` call (its error carrying `error.response?.data?.error`
when the server supplied one).  If the quantity guard fires, the handler
shows the over-availability toast and returns before any network call;
otherwise it calls the service and either notifies success and navigates
to the created transfer, or shows the error message. -/
def onSubmit (selectedAsset : Option Asset) (values : TransferValues)
    (svcResp : Except (Option String) CreatedTransfer) : SubmitResult :=
  match selectedAsset with
  | some a =>
      if a.available < values.quantity then
        { serviceCalled := false
          errorToast := some (ToastError.overAvailable a.available)
          successToast := false
          navigateTo := none }
      else createTransferStep svcResp
  | none => createTransferStep svcResp

/-! ## Concrete data used by the witnesses -/

/-- A sample user, as returned by a successful login. -/
def uAdmin : User :=
  { _id := "u1", fullName := "Jane Doe", email := "jane@example.mil",
    role := "Admin", assignedBase := none, active := true }

/-- A sample fresh-load state on a protected route, with a stale token
left in local storage by an earlier session. -/
def wStart : World :=
  { user := none, isAuthenticated := false, isInitialized := false,
    token := some "stale", pathname := "/dashboard" }

/-- A sample post-initialization history containing no successful login:
a logout whose remote call fails, a failed login, a registration. -/
def esNoLogin : List AuthEvent :=
  [AuthEvent.logoutEv (Except.error "network down"),
   AuthEvent.loginEv "jane" "pw" (Except.error "Invalid credentials"),
   AuthEvent.registerEv "payload"]

/-- A sample asset with available quantity 3. -/
def asset3 : Asset :=
  { _id := "a1", name := "Rifle", assetType := "Weapon",
    base := "Base Alpha", available := 3 }

/-- Sample form values whose destination base equals the source base. -/
def vSameBase : TransferValues :=
  { asset := "a1", fromBase := "Base Alpha", toBase := "Base Alpha",
    quantity := 1, notes := "" }

/-- Sample schema-valid form values naming `asset3` with quantity 5
(exceeding its availability of 3). -/
def vFive : TransferValues :=
  { asset := "a1", fromBase := "Base Alpha", toBase := "Base Bravo",
    quantity := 5, notes := "" }

/-- A sample created transfer as returned by the service. -/
def tCreated : CreatedTransfer :=
  { _id := "t1", quantity := 5, assetName := "Rifle" }

/-! ## Shared lemmas -/

/-- After `initAuth`, the session is unauthenticated, the token and user
are absent, and `isInitialized` is set. -/
theorem initAuth_clears (w : World) :
    (initAuth w).1.isAuthenticated = false ∧ (initAuth w).1.token = none ∧
    (initAuth w).1.user = none ∧ (initAuth w).1.isInitialized = true := by
  unfold initAuth
  dsimp only
  split <;> exact ⟨rfl, rfl, rfl, rfl⟩

/-- Running any history free of successful logins from an unauthenticated,
token-free state keeps the state unauthenticated and token-free. -/
theorem runAuth_no_successful_login (es : List AuthEvent) :
    ∀ w : World, w.isAuthenticated = false → w.token = none →
    (∀ e ∈ es, isSuccessfulLogin e = false) →
    (runAuth w es).isAuthenticated = false ∧ (runAuth w es).token = none := by
  induction es with
  | nil => exact fun w h1 h2 _ => ⟨h1, h2⟩
  | cons e es ih =>
    intro w h1 h2 hno
    have hrest : ∀ x ∈ es, isSuccessfulLogin x = false :=
      fun x hx => hno x (List.mem_cons_of_mem _ hx)
    have hstep : runAuth w (e :: es) = runAuth (stepAuth w e) es := rfl
    rw [hstep]
    cases e with
    | loginEv u p r =>
      cases r with
      | ok r =>
        have := hno _ (List.mem_cons_self _ _)
        simp [isSuccessfulLogin] at this
      | error err => exact ih _ rfl rfl hrest
    | logoutEv r => exact ih _ rfl rfl hrest
    | registerEv d => exact ih _ h1 h2 hrest

/-! ## The claims -/

/-- Claim C1: for every application load, after the auth initialization
effect completes, the session's `isAuthenticated` flag is false and the
`token` entry in local storage is absent, unless a login call has
succeeded since that load.  Quantified over any pre-initialization state
`w` and any subsequent history `es` of auth operations containing no
successful login. -/
theorem C1_init_unauthenticated_until_successful_login
    (w : World) (es : List AuthEvent)
    (hno : ∀ e ∈ es, isSuccessfulLogin e = false) :
    (runAuth (initAuth w).1 es).isAuthenticated = false ∧
    (runAuth (initAuth w).1 es).token = none :=
  runAuth_no_successful_login es (initAuth w).1
    (initAuth_clears w).1 (initAuth_clears w).2.1 hno

/-- Witness for C1: a concrete load on `/dashboard` followed by a failed
logout, a failed login and a registration stays unauthenticated with an
absent token. -/
theorem C1_witness :
    (∀ e ∈ esNoLogin, isSuccessfulLogin e = false) ∧
    (runAuth (initAuth wStart).1 esNoLogin).isAuthenticated = false ∧
    (runAuth (initAuth wStart).1 esNoLogin).token = none :=
  ⟨by decide, C1_init_unauthenticated_until_successful_login wStart esNoLogin (by decide)⟩

/-- Claim C2: every successful `login(username, password)` call returning
`{token, user}` stores exactly the returned token under the `token` key,
sets the current user to the returned user, marks the session
authenticated, and resolves with the returned user. -/
theorem C2_login_success
    (w : World) (username password : String) (r : LoginResponse) :
    (login w username password (Except.ok r)).1.1.token = some r.token ∧
    (login w username password (Except.ok r)).1.1.user = some r.user ∧
    (login w username password (Except.ok r)).1.1.isAuthenticated = true ∧
    (login w username password (Except.ok r)).2 = Except.ok r.user :=
  ⟨rfl, rfl, rfl, rfl⟩

/-- Claim C3: every `login` call whose remote service call fails clears
the local session state (token removed, user absent, `isAuthenticated`
false) and rejects with the same failure. -/
theorem C3_login_failure
    (w : World) (username password e : String) :
    (login w username password (Except.error e)).1.1.token = none ∧
    (login w username password (Except.error e)).1.1.user = none ∧
    (login w username password (Except.error e)).1.1.isAuthenticated = false ∧
    (login w username password (Except.error e)).2 = Except.error e :=
  ⟨rfl, rfl, rfl, rfl⟩

/-- Claim C4: every `logout()` call, whatever the remote logout outcome
`r`, ends with the token removed, the user absent, `isAuthenticated`
false, and a redirect to `/login`; the returned promise always resolves,
so a remote failure is never propagated. -/
theorem C4_logout_always_clears (w : World) (r : Except String Unit) :
    (logout w r).1.1.token = none ∧
    (logout w r).1.1.user = none ∧
    (logout w r).1.1.isAuthenticated = false ∧
    (logout w r).1.1.pathname = "/login" ∧
    (logout w r).1.2.navigations = ["/login"] ∧
    (logout w r).2 = Except.ok () :=
  ⟨rfl, rfl, rfl, rfl, rfl, rfl⟩

/-- Claim C5: on initialization the auth flow removes any stored token,
resets the session to unauthenticated, and issues a redirect to `/login`
if and only if the current route is not one of the three public routes;
re-running the guarded effect afterwards does nothing, so it runs at most
once per load. -/
theorem C5_init_clears_and_redirects (w : World) :
    (initAuth w).1.token = none ∧
    (initAuth w).1.user = none ∧
    (initAuth w).1.isAuthenticated = false ∧
    ((initAuth w).2.navigations = ["/login"] ↔
      w.pathname ∉ ["/login", "/register", "/forgot-password"]) ∧
    initEffect (initAuth w).1 = ((initAuth w).1, Fx.none) := by
  unfold initAuth initEffect
  dsimp only
  by_cases h1 : w.pathname = "/login" <;>
    by_cases h2 : w.pathname = "/register" <;>
    by_cases h3 : w.pathname = "/forgot-password" <;>
    simp [h1, h2, h3, Fx.none]

/-- Claim C6: every transfer form input whose destination base equals its
source base fails `TransferSchema` validation, and the submit button is
disabled for it. -/
theorem C6_same_base_invalid (v : TransferValues) (isSubmitting : Bool)
    (h : v.toBase = v.fromBase) :
    transferSchemaValid v = false ∧ submitEnabled isSubmitting v = false := by
  have hv : transferSchemaValid v = false := by
    simp [transferSchemaValid, h]
  exact ⟨hv, by simp [submitEnabled, hv]⟩

/-- Witness for C6: concrete values with `toBase = fromBase = "Base
Alpha"` fail validation and cannot be submitted. -/
theorem C6_witness :
    transferSchemaValid vSameBase = false ∧ submitEnabled false vSameBase = false :=
  C6_same_base_invalid vSameBase false rfl

/-- Claim C7: every submission with a selected asset whose quantity
exceeds that asset's available quantity is rejected client-side: the
create call is not invoked and the over-availability error toast is shown
instead. -/
theorem C7_over_quantity_rejected (a : Asset) (v : TransferValues)
    (svcResp : Except (Option String) CreatedTransfer)
    (h : a.available < v.quantity) :
    (onSubmit (some a) v svcResp).serviceCalled = false ∧
    (onSubmit (some a) v svcResp).errorToast = some (ToastError.overAvailable a.available) ∧
    (onSubmit (some a) v svcResp).navigateTo = none := by
  simp [onSubmit, h]

/-- Witness for C7: submitting quantity 5 against an asset with available
quantity 3 is rejected with no service call. -/
theorem C7_witness :
    asset3.available < vFive.quantity ∧
    (onSubmit (some asset3) vFive (Except.ok tCreated)).serviceCalled = false ∧
    (onSubmit (some asset3) vFive (Except.ok tCreated)).errorToast =
      some (ToastError.overAvailable asset3.available) ∧
    (onSubmit (some asset3) vFive (Except.ok tCreated)).navigateTo = none :=
  ⟨by decide, C7_over_quantity_rejected asset3 vFive (Except.ok tCreated) (by decide)⟩

/-- Claim C8: every `register(data)` call navigates to the login route and
makes no remote call at all — in particular the account-creation call is
never made. -/
theorem C8_register_no_network (w : World) (userData : String) :
    (registerUser w userData).1.pathname = "/login" ∧
    (registerUser w userData).2.navigations = ["/login"] ∧
    (registerUser w userData).2.remoteCalls = [] :=
  ⟨rfl, rfl, rfl⟩

/-- The session-consistency invariant of §3 of the design document:
either a user is present and the session is authenticated, or the user is
absent and the session is unauthenticated.  In particular
`isAuthenticated` is true only while a user is present. -/
def sessionConsistent (w : World) : Prop :=
  ((∃ u, w.user = some u) ∧ w.isAuthenticated = true) ∨
  (w.user = none ∧ w.isAuthenticated = false)

/-- Claim C9: every state mutation by initialization, login (success or
failure) and logout leaves the session consistent: it either sets a
present user together with `isAuthenticated = true`, or an absent user
together with `isAuthenticated = false`. -/
theorem C9_session_invariant (w : World) (username password : String)
    (rl : Except String LoginResponse) (ro : Except String Unit) :
    sessionConsistent (initAuth w).1 ∧
    sessionConsistent (login w username password rl).1.1 ∧
    sessionConsistent (logout w ro).1.1 := by
  refine ⟨?_, ?_, ?_⟩
  · exact Or.inr ⟨(initAuth_clears w).2.2.1, (initAuth_clears w).1⟩
  · cases rl with
    | ok r => exact Or.inl ⟨⟨r.user, rfl⟩, rfl⟩
    | error e => exact Or.inr ⟨rfl, rfl⟩
  · exact Or.inr ⟨rfl, rfl⟩

/-- Claim C10: when no asset is selected at submit time, the handler
skips the availability comparison: for any schema-valid values it invokes
the create call, and never shows the over-availability toast, even when
the values' quantity exceeds the availability of the asset they name. -/
theorem C10_no_selected_asset_skips_check (v : TransferValues)
    (svcResp : Except (Option String) CreatedTransfer)
    (hv : transferSchemaValid v = true) :
    (onSubmit none v svcResp).serviceCalled = true ∧
    ∀ q : ℚ, (onSubmit none v svcResp).errorToast ≠ some (ToastError.overAvailable q) := by
  cases svcResp <;> simp [onSubmit, createTransferStep]

/-- Witness for C10: schema-valid values naming `asset3` with quantity 5
(its availability is 3) still reach the service call when no asset is
selected. -/
theorem C10_witness :
    transferSchemaValid vFive = true ∧
    vFive.asset = asset3._id ∧
    asset3.available < vFive.quantity ∧
    (onSubmit none vFive (Except.ok tCreated)).serviceCalled = true :=
  ⟨by decide, rfl, by decide,
   (C10_no_selected_asset_skips_check vFive (Except.ok tCreated) (by decide)).1⟩
